import Mathlib

set_option maxRecDepth 8000

/-!
Verification of the RapidHA serial protocol driver (rapidha.py) against its
natural-language specification.

The Python source is shallowly embedded: byte strings become `List Nat`
(each entry one byte value, 0..255), stateful methods become explicit
state-passing functions, and raised exceptions become explicit error
values.  Definitions follow the source function by function; the two
components whose code lives in the external xbee helper package
(`Dispatch.register` and `Dispatch.dispatch`) are modelled from the
specification and are marked as such.
-/

/-- Decidable equality for `Except`, used to evaluate the embedded
functions on concrete inputs. -/
instance {ε α : Type _} [DecidableEq ε] [DecidableEq α] : DecidableEq (Except ε α)
  | .ok a, .ok b => decidable_of_iff (a = b) (by simp)
  | .ok _, .error _ => isFalse (by simp)
  | .error _, .ok _ => isFalse (by simp)
  | .error e, .error f => decidable_of_iff (e = f) (by simp)

/-! ## Frame codec: APIFrame -/

/-- Sum of the byte values of a byte string (Python: adding up `byteToInt`
of every byte of `self.data`). -/
def sumBytes (l : List Nat) : Nat := l.foldl (fun t b => t + b) 0

/-- Little-endian 2-byte encoding produced by `struct.pack` with format
string `<H`.  `struct.pack` raises `struct.error` when the value exceeds
65535 (it performs a range check, not a reduction); that failure is
modelled as `none`. -/
def pack_uH (n : Nat) : Option (List Nat) :=
  if n ≤ 65535 then some [n % 256, n / 256] else none

/-- `APIFrame.verify` (rapidha.py lines 37-45): adds together all payload
bytes and compares the packed 16-bit total with the 2 checksum bytes.  The
total is NOT reduced modulo 65536 before packing, so `struct.pack` fails
(modelled as `none`) whenever the total exceeds 65535. -/
def verify (data chksum : List Nat) : Option Bool :=
  match pack_uH (sumBytes data) with
  | none => none
  | some packed => some (decide (chksum = packed))

inductive ParseErr where
  | tooShort
  | indexError
  | invalidChecksum
  | structOverflow
deriving DecidableEq

/-- `APIFrame.parse` (rapidha.py lines 68-90).  The source constructs a
`ValueError` for frames of fewer than 7 raw bytes but never raises it (the
bare expression on line 76 is discarded), so `.error .tooShort` is never
produced by this function.  Reading `raw_data[4]` raises an `IndexError`
when fewer than 5 raw bytes are present.  The payload is `raw_data[1:5+n]`
where `n` is the 5th byte, the checksum is the last 2 raw bytes, and the
checksum comparison can itself fail (`.structOverflow`, see `verify`). -/
def parse (raw : List Nat) : Except ParseErr (List Nat) :=
  match raw[4]? with
  | none => .error .indexError
  | some dlen =>
    let data := (raw.drop 1).take (4 + dlen)
    let chksum := raw.drop (raw.length - 2)
    match verify data chksum with
    | none => .error .structOverflow
    | some true => .ok data
    | some false => .error .invalidChecksum

/-- `APIFrame.remaining_bytes` (rapidha.py lines 53-66): 5 header bytes,
plus the payload length read from the 5th raw byte once available, plus 2
checksum bytes, minus what has already arrived. -/
def remaining_bytes (raw : List Nat) : Int :=
  (5 + (if 5 ≤ raw.length then (raw.getD 4 0 : Int) else 0) + 2) - raw.length

/-- The inner fill loop of `_wait_for_frame` (rapidha.py lines 760-763):
keep appending stream bytes to the raw frame while `remaining_bytes` is
positive.  An exhausted stream models the Python loop blocking forever on
`serial.read` (`none`). -/
def fillLoop : List Nat → List Nat → Option (List Nat × List Nat)
  | raw, [] => if remaining_bytes raw ≤ 0 then some (raw, []) else none
  | raw, b :: rest =>
    if remaining_bytes raw ≤ 0 then some (raw, b :: rest)
    else fillLoop (raw ++ [b]) rest

inductive WaitOut where
  | frame (data : List Nat)
  | starved
  | crashed (e : ParseErr)
deriving DecidableEq

/-- `RapidHA._wait_for_frame` (rapidha.py lines 740-776) driven over a
finite byte stream.  Bytes are discarded until the start marker 0xF1; the
frame is then filled until `remaining_bytes` reaches 0 and parsed.  On a
successful parse, a frame whose decoded `data` is empty is dropped and the
scan restarts; only `ValueError` (`.invalidChecksum`) is caught by the
retry handler, other parse failures propagate out of the reader loop
(`.crashed`).  The fuel starts at the stream length: every iteration
consumes at least one stream byte, so the fuel can only run out together
with the stream, which models the Python loop blocking on a silent serial
port (`.starved`). -/
def waitLoop : Nat → List Nat → WaitOut
  | 0, _ => .starved
  | _ + 1, [] => .starved
  | fuel + 1, b :: rest =>
    if b ≠ 0xF1 then waitLoop fuel rest
    else
      match fillLoop [b] rest with
      | none => .starved
      | some (raw, s) =>
        match parse raw with
        | .ok data => if data.length = 0 then waitLoop fuel s else .frame data
        | .error .invalidChecksum => waitLoop fuel s
        | .error e => .crashed e

def wait_for_frame (stream : List Nat) : WaitOut := waitLoop stream.length stream

/-! ## Dispatch bus -/

/-- The decoded-packet fields consulted by the handlers that the claims
are about.  `_split_response` stores each decoded field as a byte string;
the three 1-byte fields used by the startup handler are carried here as
byte values, and `frame_id` is the echoed sequence byte `ord(data[2])`. -/
structure Packet where
  id : String
  frame_id : Nat
  running_state : Nat
  config_state : Nat
  network_status : Nat
deriving DecidableEq

/-- One dispatch-bus registration.  Python stores a dict of name, callback
and filter; two registration dicts compare equal exactly when they are the
same registration (distinct registrations hold distinct callback closure
objects), which the `hid` field encodes.  The callback itself is only
observed through its identity, so it is not carried. -/
structure Handler where
  name : String
  hid : Nat
  filter : Packet → Bool

/-- Modelled from the spec: `Dispatch.register` of the external xbee
helper package is not part of this repository.  Spec 4.3: register appends
a registration; multiple registrations may share the same name. -/
def register (bus : List Handler) (name : String) (hid : Nat)
    (filter : Packet → Bool) : List Handler :=
  bus ++ [⟨name, hid, filter⟩]

/-- Modelled from the spec: `Dispatch.dispatch` of the external xbee
helper package is not part of this repository.  Spec 4.3: dispatch
evaluates every current registration in order and invokes the callback of
each whose predicate matches; the returned list records the `hid` of every
invoked registration. -/
def dispatchInvoked (bus : List Handler) (p : Packet) : List Nat :=
  (bus.filter (fun h => h.filter p)).map (fun h => h.hid)

/-- Python `list.remove`: drop the first element equal to the argument
(registration equality is identity, carried by `hid`; see `Handler`). -/
def removeFirst : List Handler → Handler → List Handler
  | [], _ => []
  | x :: xs, h => if x.name = h.name ∧ x.hid = h.hid then xs else x :: removeFirst xs h

/-- Scan of a handler-list suffix for the next registration carrying the
given name, reporting its absolute index; `j` is the absolute index of the
head of the suffix. -/
def findFromAux (n : String) : List Handler → Nat → Option Nat
  | [], _ => none
  | x :: xs, j => if x.name = n then some j else findFromAux n xs (j + 1)

/-- Position of the next registration named `n` at index `j` or later of
the live list `l` (the filtering generator inside `unregister_dispatch`
combined with the list iterator position). -/
def findIdxFrom (n : String) (l : List Handler) (j : Nat) : Option Nat :=
  findFromAux n (l.drop j) j

/-- `RapidHADevice.unregister_dispatch` (rapidha.py lines 1133-1137): a
generator over the LIVE handler list is interleaved with `list.remove` on
that same list.  The list iterator keeps a plain index, so after the
element found at index `k` is removed the scan resumes at index `k + 1` of
the SHRUNK list — the element that slid into slot `k` is never examined.
Fuel: every recursive step removes exactly one element from the list, so
`l.length` steps always suffice and the fuel case is never the reason the
loop stops. -/
def unregLoop (n : String) : Nat → List Handler → Nat → List Handler
  | 0, l, _ => l
  | fuel + 1, l, j =>
    match findIdxFrom n l j with
    | none => l
    | some k =>
      match l[k]? with
      | none => l
      | some item => unregLoop n fuel (removeFirst l item) (k + 1)

def unregister_dispatch (n : String) (l : List Handler) : List Handler :=
  unregLoop n l.length l 0

/-! ## Synchronous adapter -/

/-- `Synchronous.__getattr__` / `run_synchronous` (rapidha.py lines
1161-1194), with real time abstracted: `incoming` is the sequence of
packets the reader loop dispatches during the wait window.  The one-shot
handler fires on the first packet matching `filter`; when it fires it
unregisters its own name and records the packet, and the call returns the
packet.  When nothing matches, the poll loop reaches the timeout and the
call raises `TimeoutError` (modelled `none`) WITHOUT unregistering the
handler — the registration stays on the bus. -/
def run_synchronous (bus : List Handler) (hname : String) (hid : Nat)
    (filter : Packet → Bool) (incoming : List Packet) :
    Option Packet × List Handler :=
  let bus1 := register bus hname hid filter
  match incoming.find? filter with
  | some p => (some p, unregister_dispatch hname bus1)
  | none => (none, bus1)

/-! ## Command registry and encoder -/

/-- One field of a command schema: `name`, `len` (a fixed byte count, or
`none` for a variable-length field) and an optional `default` byte string. -/
structure CField where
  name : String
  len : Option Nat
  default : Option (List Nat)
deriving DecidableEq

def resetSpec : List CField :=
  [⟨"id", some 2, some [0x55, 0x00]⟩]

def formNetworkSpec : List CField :=
  [⟨"id", some 2, some [0x01, 0x01]⟩,
   ⟨"channel_mask", some 4, none⟩,
   ⟨"auto_options", some 1, none⟩,
   ⟨"short_pan", some 2, none⟩,
   ⟨"expanded_pan", some 8, none⟩]

/-- `RapidHA.api_commands` (rapidha.py lines 228-491), in source order. -/
def api_commands : List (String × List CField) :=
  [("reset", resetSpec),
   ("module_info", [⟨"id", some 2, some [0x55, 0x03]⟩]),
   ("bootloader_version", [⟨"id", some 2, some [0x55, 0x04]⟩]),
   ("application_version_count", [⟨"id", some 2, some [0x55, 0x06]⟩]),
   ("application_verion",
     [⟨"id", some 2, some [0x55, 0x08]⟩,
      ⟨"version", some 1, some [0x00]⟩]),
   ("host_startup_ready", [⟨"id", some 2, some [0x55, 0x20]⟩]),
   ("startup_sync", [⟨"id", some 2, some [0x55, 0x22]⟩]),
   ("serial_ack",
     [⟨"id", some 2, some [0x55, 0x30]⟩,
      ⟨"on", some 1, some [0x01]⟩]),
   ("get_serial_ack", [⟨"id", some 2, some [0x55, 0x31]⟩]),
   ("device_type_write",
     [⟨"id", some 2, some [0x03, 0x00]⟩,
      ⟨"type", some 1, none⟩,
      ⟨"sleepy", some 1, none⟩]),
   ("endpoint_list", [⟨"id", some 2, some [0x03, 0x11]⟩]),
   ("clear_endpoint_config", [⟨"id", some 2, some [0x03, 0x30]⟩]),
   ("add_endpoint",
     [⟨"id", some 2, some [0x03, 0x10]⟩,
      ⟨"endpoint", some 1, none⟩,
      ⟨"profile_id", some 2, none⟩,
      ⟨"device_id", some 2, none⟩,
      ⟨"device_version", some 1, none⟩,
      ⟨"server_clusters", some 1, none⟩,
      ⟨"cluster_data", none, none⟩]),
   ("add_attribute_to_cluster",
     [⟨"id", some 2, some [0x03, 0x20]⟩,
      ⟨"endpoint", some 1, none⟩,
      ⟨"custer_id", some 2, none⟩,
      ⟨"is_server", some 1, none⟩,
      ⟨"attribute_count", some 1, none⟩,
      ⟨"attributes", none, none⟩]),
   ("restore_defaults", [⟨"id", some 2, some [0x55, 0x10]⟩]),
   ("join_network",
     [⟨"id", some 2, some [0x01, 0x00]⟩,
      ⟨"channel_mask", some 4, none⟩,
      ⟨"auto_options", some 1, none⟩,
      ⟨"short_pan", some 2, none⟩,
      ⟨"expanded_pan", some 8, none⟩]),
   ("form_network", formNetworkSpec),
   ("permit_join",
     [⟨"id", some 2, some [0x01, 0x03]⟩,
      ⟨"duration", some 1, some [0x3C]⟩]),
   ("leave_network", [⟨"id", some 2, some [0x01, 0x04]⟩]),
   ("rejoin_network", [⟨"id", some 2, some [0x01, 0x05]⟩]),
   ("network_status", [⟨"id", some 2, some [0x01, 0x08]⟩]),
   ("network_auto_join",
     [⟨"id", some 2, some [0x01, 0x11]⟩,
      ⟨"scan_count", some 1, none⟩,
      ⟨"delay", some 1, none⟩]),
   ("network_reset_auto_join",
     [⟨"id", some 2, some [0x01, 0x12]⟩,
      ⟨"scan_count", some 1, none⟩,
      ⟨"delay", some 1, none⟩]),
   ("send_zcl_unicast",
     [⟨"id", some 2, some [0x05, 0x00]⟩,
      ⟨"dest_node", some 2, none⟩,
      ⟨"dest_endpoint", some 2, none⟩,
      ⟨"local_endpoint", some 1, none⟩,
      ⟨"cluster", some 2, none⟩,
      ⟨"response_options", some 1, none⟩,
      ⟨"encryption_level", some 1, none⟩,
      ⟨"frame_control", some 1, none⟩,
      ⟨"manufacturer_code", some 2, none⟩,
      ⟨"transaction_seq", some 1, none⟩,
      ⟨"command", some 1, none⟩,
      ⟨"payload_length", some 1, none⟩,
      ⟨"payload", none, none⟩]),
   ("send_zcl_multicast",
     [⟨"id", some 2, some [0x05, 0x01]⟩,
      ⟨"dest_endpoint", some 2, none⟩,
      ⟨"local_endpoint", some 1, none⟩,
      ⟨"radius", some 1, none⟩,
      ⟨"non_member_radius", some 1, none⟩,
      ⟨"response_options", some 1, none⟩,
      ⟨"frame_control", some 1, none⟩,
      ⟨"manufacturer_code", some 2, none⟩,
      ⟨"transaction_seq", some 1, none⟩,
      ⟨"command", some 1, none⟩,
      ⟨"payload_length", some 1, none⟩,
      ⟨"payload", none, none⟩]),
   ("send_zcl_broadcast",
     [⟨"id", some 2, some [0x05, 0x02]⟩,
      ⟨"broadcast_address", some 1, none⟩,
      ⟨"dest_endpoint", some 2, none⟩,
      ⟨"local_endpoint", some 1, none⟩,
      ⟨"cluster", some 2, none⟩,
      ⟨"response_options", some 1, none⟩,
      ⟨"frame_control", some 1, none⟩,
      ⟨"manufacturer_code", some 2, none⟩,
      ⟨"transaction_seq", some 1, none⟩,
      ⟨"command", some 1, none⟩,
      ⟨"payload_length", some 1, none⟩,
      ⟨"payload", none, none⟩]),
   ("aps_zcl_ack",
     [⟨"id", some 2, some [0x05, 0x10]⟩,
      ⟨"status", some 1, none⟩,
      ⟨"transaction_seq", some 1, none⟩]),
   ("read_zcl_attribute",
     [⟨"id", some 2, some [0x05, 0x30]⟩,
      ⟨"node", some 2, none⟩,
      ⟨"endpoint", some 1, none⟩,
      ⟨"cluster", some 2, none⟩,
      ⟨"is_server", some 1, none⟩,
      ⟨"attrib_count", some 1, none⟩,
      ⟨"attrib_ids", none, none⟩]),
   ("write_zcl_attribute",
     [⟨"id", some 2, some [0x05, 0x32]⟩,
      ⟨"node", some 2, none⟩,
      ⟨"endpoint", some 1, none⟩,
      ⟨"cluster", some 2, none⟩,
      ⟨"is_server", some 1, none⟩,
      ⟨"attrib_count", some 1, none⟩,
      ⟨"attrib_value", none, none⟩]),
   ("ota_image_notify",
     [⟨"id", some 2, some [0xB0, 0x00]⟩,
      ⟨"node", some 2, none⟩,
      ⟨"eui64", some 8, none⟩,
      ⟨"endpoint", some 1, none⟩,
      ⟨"payload_type", some 1, none⟩,
      ⟨"query_jitter", some 1, some [0x32]⟩,
      ⟨"manufacturer_code", some 2, none⟩,
      ⟨"image_type", some 2, some [0x00, 0x00]⟩,
      ⟨"file_version", some 4, none⟩]),
   ("ota_next_image_response",
     [⟨"id", some 2, some [0xB0, 0x02]⟩,
      ⟨"node", some 2, none⟩,
      ⟨"eui64", some 8, none⟩,
      ⟨"endpoint", some 1, none⟩,
      ⟨"status", some 1, none⟩,
      ⟨"manufacturer_code", some 2, none⟩,
      ⟨"image_type", some 2, some [0x00, 0x00]⟩,
      ⟨"file_version", some 4, none⟩,
      ⟨"image_size", some 4, none⟩]),
   ("ota_image_block_success",
     [⟨"id", some 2, some [0xB0, 0x05]⟩,
      ⟨"node", some 2, none⟩,
      ⟨"eui64", some 8, none⟩,
      ⟨"endpoint", some 1, none⟩,
      ⟨"status", some 1, some [0x00]⟩,
      ⟨"manufacturer_code", some 2, none⟩,
      ⟨"image_type", some 2, some [0x00, 0x00]⟩,
      ⟨"file_version", some 4, none⟩,
      ⟨"file_offset", some 4, none⟩,
      ⟨"data_size", some 1, none⟩,
      ⟨"data", none, none⟩]),
   ("ota_image_block_wait",
     [⟨"id", some 2, some [0xB0, 0x05]⟩,
      ⟨"node", some 2, none⟩,
      ⟨"eui64", some 8, none⟩,
      ⟨"endpoint", some 1, none⟩,
      ⟨"status", some 1, some [0x97]⟩,
      ⟨"time", some 4, none⟩,
      ⟨"request_time", some 4, none⟩,
      ⟨"checksum_lsb", some 1, none⟩,
      ⟨"checksum_msb", some 1, none⟩]),
   ("ota_image_block_abort",
     [⟨"id", some 2, some [0xB0, 0x05]⟩,
      ⟨"node", some 2, none⟩,
      ⟨"eui64", some 8, none⟩,
      ⟨"endpoint", some 1, none⟩,
      ⟨"status", some 1, some [0x95]⟩]),
   ("ota_upgrade_end",
     [⟨"id", some 2, some [0xB0, 0x07]⟩,
      ⟨"node", some 2, none⟩,
      ⟨"eui64", some 8, none⟩,
      ⟨"endpoint", some 1, none⟩,
      ⟨"manufacturer_code", some 2, none⟩,
      ⟨"image_type", some 2, some [0x00, 0x00]⟩,
      ⟨"file_version", some 4, none⟩,
      ⟨"time", some 4, none⟩,
      ⟨"upgrade_time", some 4, none⟩])]

inductive BuildErr where
  | malformed
  | missingField (f : String)
  | lengthMismatch (f : String)
deriving DecidableEq

/-- Python truthiness of the length check guard: a length of `None` (and a
length of 0) is falsy, so no length comparison happens for such fields. -/
def lenFails : Option Nat → List Nat → Bool
  | none, _ => false
  | some L, d => !(L == 0) && !(d.length == L)

/-- The field loop of `RapidHA._build_command` (rapidha.py lines 887-925),
over the schema fields after the leading id field.  A caller-supplied
value is length-checked and appended when non-empty; a missing value falls
back to the default only when the field has a (truthy) length and the
default is truthy (non-empty), raises `MissingField` when the field has a
length but no truthy default, and contributes nothing when the field has
no length. -/
def buildFields : List CField → (String → Option (List Nat)) → Except BuildErr (List Nat)
  | [], _ => .ok []
  | f :: rest, kw =>
    match kw f.name with
    | some d =>
      if lenFails f.len d then .error (.lengthMismatch f.name)
      else
        match buildFields rest kw with
        | .error e => .error e
        | .ok p => .ok ((if d.isEmpty then [] else d) ++ p)
    | none =>
      match f.len with
      | some _ =>
        match f.default with
        | some dv =>
          if dv.isEmpty then .error (.missingField f.name)
          else if lenFails f.len dv then .error (.lengthMismatch f.name)
          else
            match buildFields rest kw with
            | .error e => .error e
            | .ok p => .ok ((if dv.isEmpty then [] else dv) ++ p)
        | none => .error (.missingField f.name)
      | none => buildFields rest kw

/-- Claim C6 reference algorithm, written from the claim wording: use the
caller-supplied value; otherwise use a declared default; otherwise a field
whose length is not fixed contributes nothing and encoding continues;
otherwise fail with MissingField.  Whenever a fixed-length field's chosen
value has the wrong byte length, fail with FieldLengthMismatch. -/
def claimFields : List CField → (String → Option (List Nat)) → Except BuildErr (List Nat)
  | [], _ => .ok []
  | f :: rest, kw =>
    match (match kw f.name with | some v => some v | none => f.default) with
    | some v =>
      match f.len with
      | some L =>
        if v.length ≠ L then .error (.lengthMismatch f.name)
        else
          match claimFields rest kw with
          | .error e => .error e
          | .ok p => .ok (v ++ p)
      | none =>
        match claimFields rest kw with
        | .error e => .error e
        | .ok p => .ok (v ++ p)
    | none =>
      match f.len with
      | some _ => .error (.missingField f.name)
      | none => claimFields rest kw

/-- Wrap of the per-instance frame sequence counter:
`self.frame_seq = (self.frame_seq + 1) & 0xFF`. -/
def nextSeq (s : Nat) : Nat := (s + 1) % 256

/-- `RapidHA._build_command` (rapidha.py lines 865-940).  The id field
must come first and carry a default; the remaining fields are encoded by
`buildFields`; only then is the sequence counter incremented (an encoding
failure leaves it untouched, hence the counter is returned next to the
result).  The emitted packet is id, post-increment sequence byte, the low
8 bits of the payload length, the payload, and the 16-bit byte-sum
checksum stored little-endian. -/
def build_command (spec : List CField) (kw : String → Option (List Nat))
    (seq : Nat) : Except BuildErr (List Nat) × Nat :=
  match spec with
  | [] => (.error .malformed, seq)
  | idf :: rest =>
    if idf.name ≠ "id" then (.error .malformed, seq)
    else
      match idf.default with
      | none => (.error .malformed, seq)
      | some cid =>
        match buildFields rest kw with
        | .error e => (.error e, seq)
        | .ok payload =>
          let s := nextSeq seq
          let packet := cid ++ [s, payload.length % 256] ++ payload
          let chk := sumBytes packet
          (.ok (packet ++ [chk % 256, chk / 256 % 256]), s)

/-! ## Response registry and decoder -/

/-- One field of a response schema: fixed byte count, or `none` meaning
"consume the remaining bytes".  (The source also supports a literal
null-terminated marker, but no entry of `api_responses` uses it, so that
dead branch is not carried.) -/
structure RField where
  name : String
  len : Option Nat
deriving DecidableEq

structure RSpec where
  name : String
  fields : List RField
deriving DecidableEq

def startupSyncSpec : RSpec :=
  ⟨"startup_sync", [⟨"running_state", some 1⟩, ⟨"config_state", some 1⟩]⟩

/-- `RapidHA.api_responses` (rapidha.py lines 493-694), in source order.
The source is a dict literal with DUPLICATE keys (0x55 0x09 appears twice,
0x05 0x03 three times); a Python dict keeps only the last entry per key,
so the earlier duplicates are unreachable.  All entries are kept here so
that statements quantified over the registry cover every written schema. -/
def api_responses : List (List Nat × RSpec) :=
  [([0x55, 0x21], startupSyncSpec),
   ([0x55, 0x03],
     ⟨"module_info_response",
      [⟨"major_firmware_version", some 1⟩,
       ⟨"minor_firmware_version", some 1⟩,
       ⟨"build_firmware_version", some 1⟩,
       ⟨"application_information", some 2⟩,
       ⟨"eui64", some 8⟩,
       ⟨"hardware_type", some 1⟩,
       ⟨"bootloader_type", some 1⟩]⟩),
   ([0x55, 0x05],
     ⟨"bootloader_version_response",
      [⟨"ember_version", some 4⟩, ⟨"mmb_version", some 4⟩]⟩),
   ([0x55, 0x07],
     ⟨"application_version_count_response", [⟨"version_count", some 1⟩]⟩),
   ([0x55, 0x09],
     ⟨"application_version_response",
      [⟨"version_count", some 1⟩, ⟨"version_type", some 1⟩,
       ⟨"version", none⟩]⟩),
   ([0x55, 0x09],
     ⟨"",
      [⟨"version_count", some 1⟩, ⟨"version_type", some 1⟩,
       ⟨"version", none⟩]⟩),
   ([0x55, 0x32],
     ⟨"serial_ack_response", [⟨"serial_config", some 1⟩]⟩),
   ([0x55, 0x80], ⟨"status_response", [⟨"status", some 1⟩]⟩),
   ([0x55, 0xE0],
     ⟨"error", [⟨"error", some 1⟩, ⟨"sub_error", some 1⟩]⟩),
   ([0x03, 0x12],
     ⟨"endpoint_list_response",
      [⟨"endpoints", some 1⟩, ⟨"data", none⟩]⟩),
   ([0x01, 0x09],
     ⟨"network_status_response",
      [⟨"network_status", some 1⟩,
       ⟨"zigbee_device", some 1⟩,
       ⟨"channel", some 1⟩,
       ⟨"node", some 2⟩,
       ⟨"short_pan", some 2⟩,
       ⟨"extended_pan", some 8⟩,
       ⟨"permit_join_time", some 1⟩]⟩),
   ([0x01, 0x10],
     ⟨"network_device_trust_response",
      [⟨"node", some 2⟩, ⟨"eui64", some 8⟩, ⟨"event", some 1⟩,
       ⟨"parent", some 2⟩]⟩),
   ([0x05, 0x03],
     ⟨"send_zcl_unicast_response",
      [⟨"status", some 1⟩, ⟨"transaction_seq", some 1⟩]⟩),
   ([0x05, 0x03],
     ⟨"send_zcl_broadcast_response",
      [⟨"status", some 1⟩, ⟨"transaction_seq", some 1⟩]⟩),
   ([0x05, 0x03],
     ⟨"send_zcl_multicast_response",
      [⟨"status", some 1⟩, ⟨"transaction_seq", some 1⟩]⟩),
   ([0x05, 0x31],
     ⟨"read_zcl_attribute_response",
      [⟨"node", some 2⟩, ⟨"endpoint", some 1⟩, ⟨"cluster", some 2⟩,
       ⟨"is_server", some 1⟩, ⟨"attribute", some 2⟩,
       ⟨"zcl_status", some 1⟩, ⟨"attrib_type", some 1⟩,
       ⟨"attrib_value", none⟩]⟩),
   ([0x05, 0x33],
     ⟨"write_zcl_attribute_response",
      [⟨"node", some 2⟩, ⟨"endpoint", some 1⟩, ⟨"cluster", some 2⟩,
       ⟨"is_server", some 1⟩, ⟨"status", some 1⟩,
       ⟨"attrib_count", some 1⟩, ⟨"attrib_records", none⟩]⟩),
   ([0xB0, 0x01],
     ⟨"ota_query_next_image_request",
      [⟨"node", some 2⟩, ⟨"eui64", some 8⟩, ⟨"endpoint", some 1⟩,
       ⟨"field_control", some 1⟩, ⟨"manufacturer_code", some 2⟩,
       ⟨"image_type", some 2⟩, ⟨"file_version", some 4⟩,
       ⟨"hardware_version", none⟩]⟩),
   ([0xB0, 0x03],
     ⟨"ota_image_block_request",
      [⟨"node", some 2⟩, ⟨"eui64", some 8⟩, ⟨"endpoint", some 1⟩,
       ⟨"field_control", some 1⟩, ⟨"manufacturer_code", some 2⟩,
       ⟨"image_type", some 2⟩, ⟨"file_version", some 4⟩,
       ⟨"file_offset", some 4⟩, ⟨"max_data_size", some 1⟩]⟩),
   ([0xB0, 0x06],
     ⟨"ota_upgrade_end_request",
      [⟨"node", some 2⟩, ⟨"eui64", some 8⟩, ⟨"endpoint", some 1⟩,
       ⟨"status", some 1⟩, ⟨"manufacturer_code", some 2⟩,
       ⟨"image_type", some 2⟩, ⟨"file_version", some 4⟩]⟩)]

inductive SplitErr where
  | indexError
  | truncated
  | overlong
deriving DecidableEq

/-- The field loop of `RapidHA._split_response` (rapidha.py lines
811-845): a fixed-length field checks `index + len > len(data)`
(TruncatedResponse on failure) and consumes exactly `len` bytes; a field
with no length takes every remaining byte — stored only when non-empty —
and breaks out of the loop.  Returns the final index together with the
decoded fields. -/
def split_fields : List RField → List Nat → Nat →
    Except SplitErr (Nat × List (String × List Nat))
  | [], _, index => .ok (index, [])
  | f :: rest, data, index =>
    match f.len with
    | some flen =>
      if index + flen > data.length then .error .truncated
      else
        match split_fields rest data (index + flen) with
        | .error e => .error e
        | .ok (fi, flds) => .ok (fi, (f.name, (data.drop index).take flen) :: flds)
    | none =>
      let fd := data.drop index
      if fd.isEmpty then .ok (index, [])
      else .ok (index + fd.length, [(f.name, fd)])

/-- `RapidHA._split_response` (rapidha.py lines 778-863) specialised to a
known response schema: builds the result header (reading the echoed
sequence byte `ord(data[2])`, an IndexError on payloads shorter than 3
bytes), walks the schema fields from offset 4, and finally raises
OverlongResponse when `index + 2 < len(data)`.  No registry entry carries
extra parsing rules, so that final block is a no-op. -/
def split_response (spec : RSpec) (data : List Nat) :
    Except SplitErr (String × Nat × List (String × List Nat)) :=
  match data[2]? with
  | none => .error .indexError
  | some fid =>
    match split_fields spec.fields data 4 with
    | .error e => .error e
    | .ok (index, flds) =>
      if index + 2 < data.length then .error .overlong
      else .ok (spec.name, fid, flds)

/-- Sum of the declared fixed field lengths of a response schema. -/
def fixedSum : List RField → Nat
  | [] => 0
  | f :: rest => f.len.getD 0 + fixedSum rest

/-- Whether a schema contains a consume-the-rest field. -/
def hasRemainder (fs : List RField) : Bool := fs.any (fun f => f.len.isNone)

/-- A consume-the-rest field may only sit in the last position. -/
def wfFields : List RField → Bool
  | [] => true
  | f :: rest => (rest.isEmpty || f.len.isSome) && wfFields rest

/-- The schema opens with a fixed-length field. -/
def startsFixed : List RField → Bool
  | [] => false
  | f :: _ => f.len.isSome

/-! ## Device controller: bring-up state machine -/

def STATE_WAITING_STARTUP_SYNC : Nat := 1
def STATE_STARTUP_RESET : Nat := 2
def STATE_SERIAL_ACK : Nat := 3
def STATE_HOST_STARTUP_READY : Nat := 4
def STATE_HOST_STARTUP_READY_ACK : Nat := 5
def STATE_CONFIGURE_DEVICE_TYPE : Nat := 6
def STATE_CLEAR_ENDPOINTS : Nat := 7
def STATE_ADD_ENDPOINTS_AND_CLUSTERS : Nat := 8
def STATE_ADD_ATTRIBUTES : Nat := 9
def STATE_ADD_ATTRIBUTES_ACK : Nat := 10
def STATE_STARTUP_SYNC_COMPLETE : Nat := 11
def STATE_NETWORK_DOWN : Nat := 12
def STATE_NETWORK_UP : Nat := 13

def RUNNING_STATE_STARTING : Nat := 0x00
def CONFIGURATION_STATE_NEEDS_ENDPOINT_CONFIG : Nat := 0x01
def CONFIGURATION_STATE_CONFIGURED : Nat := 0x02

/-- Mutable controller state touched by `startup_handler`: the bring-up
state, the per-instance frame sequence counter (incremented by every
command transmission via `_build_command`), and the last observed
network-status packet. -/
structure Ctrl where
  config_state : Nat
  frame_seq : Nat
  network_state : Option Packet

/-- An issued command: registry name and keyword arguments. -/
abbrev Cmd := String × List (String × List Nat)

/-- `RapidHADevice.startup_handler` (rapidha.py lines 1015-1105), the
bring-up elif chain.  Every command the handler sends goes through
`_build_command` once, so the frame counter advances by `nextSeq` per
emitted command.  The byte-string constants are inlined exactly as the
source composes them (profile, device id, cluster list, attribute list,
channel mask).  Only the NetworkDown-to-NetworkUp branch touches the
dispatch bus, via `unregister_dispatch "startup"`. -/
def startup_handler (c : Ctrl) (bus : List Handler) (pkt : Packet) :
    Ctrl × List Handler × List Cmd :=
  if c.config_state = STATE_WAITING_STARTUP_SYNC ∧ pkt.id = "startup_sync" then
    ({ c with config_state := STATE_SERIAL_ACK, frame_seq := nextSeq c.frame_seq },
     bus, [("reset", [])])
  else if c.config_state = STATE_SERIAL_ACK ∧ pkt.id = "startup_sync" then
    ({ c with config_state := STATE_HOST_STARTUP_READY, frame_seq := nextSeq c.frame_seq },
     bus, [("serial_ack", [])])
  else if c.config_state = STATE_HOST_STARTUP_READY ∧ pkt.frame_id = c.frame_seq then
    ({ c with config_state := STATE_HOST_STARTUP_READY_ACK, frame_seq := nextSeq c.frame_seq },
     bus, [("host_startup_ready", [])])
  else if c.config_state = STATE_HOST_STARTUP_READY_ACK ∧ pkt.id = "startup_sync" then
    if pkt.running_state = RUNNING_STATE_STARTING then
      if pkt.config_state = CONFIGURATION_STATE_CONFIGURED then
        ({ c with config_state := STATE_STARTUP_SYNC_COMPLETE, frame_seq := nextSeq c.frame_seq },
         bus, [("startup_sync", [])])
      else if pkt.config_state = CONFIGURATION_STATE_NEEDS_ENDPOINT_CONFIG then
        ({ c with config_state := STATE_CLEAR_ENDPOINTS, frame_seq := nextSeq c.frame_seq },
         bus, [("clear_endpoint_config", [])])
      else
        ({ c with config_state := STATE_CONFIGURE_DEVICE_TYPE, frame_seq := nextSeq c.frame_seq },
         bus, [("device_type_write", [("type", [0x00]), ("sleepy", [0x00])])])
    else
      ({ c with config_state := STATE_STARTUP_SYNC_COMPLETE, frame_seq := nextSeq c.frame_seq },
       bus, [("startup_sync", [])])
  else if c.config_state = STATE_CONFIGURE_DEVICE_TYPE ∧ pkt.frame_id = c.frame_seq then
    ({ c with config_state := STATE_CLEAR_ENDPOINTS, frame_seq := nextSeq c.frame_seq },
     bus, [("clear_endpoint_config", [])])
  else if c.config_state = STATE_CLEAR_ENDPOINTS ∧ pkt.frame_id = c.frame_seq then
    ({ c with config_state := STATE_ADD_ATTRIBUTES, frame_seq := nextSeq c.frame_seq },
     bus,
     [("add_endpoint",
       [("endpoint", [0x01]), ("profile_id", [0x04, 0x01]),
        ("device_id", [0x07, 0x00]), ("device_version", [0x01]),
        ("server_clusters", [0x03]),
        ("cluster_data",
         [0x00, 0x00, 0x03, 0x00, 0x19, 0x00, 0x03,
          0x00, 0x00, 0x03, 0x00, 0x01, 0x02])])])
  else if c.config_state = STATE_ADD_ATTRIBUTES ∧ pkt.frame_id = c.frame_seq then
    ({ c with config_state := STATE_ADD_ATTRIBUTES_ACK, frame_seq := nextSeq c.frame_seq },
     bus,
     [("add_attribute_to_cluster",
       [("endpoint", [0x01]), ("custer_id", [0x01, 0x02]),
        ("is_server", [0x00]), ("attribute_count", [0x01]),
        ("attributes", [0x11, 0x00, 0x29, 0x03])])])
  else if c.config_state = STATE_ADD_ATTRIBUTES_ACK ∧ pkt.id = "status_response" then
    ({ c with config_state := STATE_STARTUP_SYNC_COMPLETE, frame_seq := nextSeq c.frame_seq },
     bus, [("startup_sync", [])])
  else if c.config_state = STATE_STARTUP_SYNC_COMPLETE ∧ pkt.id = "network_status_response" then
    if pkt.network_status = 0x00 then
      ({ c with config_state := STATE_NETWORK_DOWN, frame_seq := nextSeq c.frame_seq,
                network_state := some pkt },
       bus,
       [("form_network",
         [("channel_mask", [0x00, 0xF8, 0xFF, 0x03]), ("auto_options", [0x03]),
          ("short_pan", [0x00, 0x00]),
          ("expanded_pan", [0x00, 0x00, 0x00, 0x00, 0x00, 0x00, 0x00, 0x00])])])
    else if pkt.network_status = 0x01 then
      ({ c with config_state := STATE_NETWORK_UP, network_state := some pkt }, bus, [])
    else
      ({ c with network_state := some pkt }, bus, [])
  else if c.config_state = STATE_NETWORK_DOWN ∧ pkt.id = "network_status_response" then
    if pkt.network_status = 0x01 then
      ({ c with config_state := STATE_NETWORK_UP, network_state := some pkt },
       unregister_dispatch "startup" bus, [])
    else
      ({ c with network_state := some pkt }, bus, [])
  else
    (c, bus, [])

/-- Value of a little-endian byte string as an unsigned integer. -/
def leBytesToNat : List Nat → Nat
  | [] => 0
  | b :: rest => b + 256 * leBytesToNat rest

/-- Schema sanity predicate under which the source field loop and the
claim wording agree: a field without a fixed length declares no default,
no declared default is the empty byte string, and no fixed length is 0
(Python truthiness would silently skip checks otherwise).  Every schema of
`api_commands` satisfies it. -/
def goodField (f : CField) : Bool :=
  match f.len, f.default with
  | none, none => true
  | none, some _ => false
  | some L, d => !(L == 0) && !(d == some ([] : List Nat))

/-! ## Helper lemmas -/

theorem findFromAux_none (n : String) :
    ∀ (l : List Handler) (j : Nat), (∀ x ∈ l, x.name ≠ n) → findFromAux n l j = none := by
  intro l
  induction l with
  | nil => intro j _; rfl
  | cons x xs ih =>
    intro j hcl
    have hx : x.name ≠ n := hcl x (by simp)
    simp only [findFromAux, if_neg hx]
    exact ih (j + 1) (fun y hy => hcl y (by simp [hy]))

theorem findFromAux_append (n : String) (h : Handler) (l₂ : List Handler)
    (hn : h.name = n) :
    ∀ (l₁ : List Handler) (j : Nat), (∀ x ∈ l₁, x.name ≠ n) →
      findFromAux n (l₁ ++ h :: l₂) j = some (j + l₁.length) := by
  intro l₁
  induction l₁ with
  | nil => intro j _; simp [findFromAux, hn]
  | cons x xs ih =>
    intro j hcl
    have hx : x.name ≠ n := hcl x (by simp)
    simp only [List.cons_append, findFromAux, if_neg hx, List.append_eq]
    rw [ih (j + 1) (fun y hy => hcl y (by simp [hy]))]
    congr 1
    simp only [List.length_cons]
    omega

theorem getElem?_append_mid (h : Handler) (l₂ : List Handler) :
    ∀ l₁ : List Handler, (l₁ ++ h :: l₂)[l₁.length]? = some h := by
  intro l₁
  induction l₁ with
  | nil => simp
  | cons x xs ih => simpa using ih

theorem removeFirst_append (h : Handler) (l₂ : List Handler) :
    ∀ l₁ : List Handler, (∀ x ∈ l₁, x.name ≠ h.name) →
      removeFirst (l₁ ++ h :: l₂) h = l₁ ++ l₂ := by
  intro l₁
  induction l₁ with
  | nil => intro; simp [removeFirst]
  | cons x xs ih =>
    intro hcl
    have hx : x.name ≠ h.name := hcl x (by simp)
    have hcond : ¬(x.name = h.name ∧ x.hid = h.hid) := fun hc => hx hc.1
    simp only [List.cons_append, removeFirst, if_neg hcond, List.append_eq]
    rw [ih (fun y hy => hcl y (by simp [hy]))]

theorem drop_len_add (l₂ : List Handler) (m : Nat) :
    ∀ l₁ : List Handler, (l₁ ++ l₂).drop (l₁.length + m) = l₂.drop m := by
  intro l₁
  induction l₁ with
  | nil => simp
  | cons x xs ih =>
    have hidx : (x :: xs).length + m = (xs.length + m) + 1 := by simp; omega
    rw [hidx, List.cons_append, List.drop_succ_cons]
    exact ih

theorem unregLoop_stop (n : String) (l : List Handler) (j : Nat)
    (hf : findIdxFrom n l j = none) : ∀ fuel, unregLoop n fuel l j = l := by
  intro fuel
  cases fuel with
  | zero => rfl
  | succ f => simp [unregLoop, hf]

/-- When exactly one registration on the bus carries the name, the buggy
skip-scan of `unregister_dispatch` still removes it (the skip needs a
second adjacent match to misfire). -/
theorem unreg_unique (n : String) (l₁ l₂ : List Handler) (h : Handler)
    (hn : h.name = n) (h₁ : ∀ x ∈ l₁, x.name ≠ n) (h₂ : ∀ x ∈ l₂, x.name ≠ n) :
    unregister_dispatch n (l₁ ++ h :: l₂) = l₁ ++ l₂ := by
  have hlen : (l₁ ++ h :: l₂).length = (l₁.length + l₂.length) + 1 := by
    simp only [List.length_append, List.length_cons]
    omega
  have hfind : findIdxFrom n (l₁ ++ h :: l₂) 0 = some l₁.length := by
    unfold findIdxFrom
    simpa using findFromAux_append n h l₂ hn l₁ 0 h₁
  have hget : (l₁ ++ h :: l₂)[l₁.length]? = some h := getElem?_append_mid h l₂ l₁
  have hrem : removeFirst (l₁ ++ h :: l₂) h = l₁ ++ l₂ :=
    removeFirst_append h l₂ l₁ (fun x hx => by rw [hn]; exact h₁ x hx)
  have hstop : findIdxFrom n (l₁ ++ l₂) (l₁.length + 1) = none := by
    unfold findIdxFrom
    rw [drop_len_add l₂ 1 l₁]
    apply findFromAux_none
    intro x hx
    apply h₂
    cases l₂ with
    | nil => simp at hx
    | cons b t => exact List.mem_cons_of_mem b (by simpa using hx)
  unfold unregister_dispatch
  rw [hlen]
  simp only [unregLoop, hfind, hget, hrem]
  exact unregLoop_stop n (l₁ ++ l₂) (l₁.length + 1) hstop _

/-! ## Claim C1 -/

/-- Counterexample to claim C1: a 258-byte payload of 0xFF bytes sums to
65790, whose value modulo 65536 is 254 (little-endian bytes 254, 0).  The
claim predicts `verify` returns true against that checksum field; instead
`struct.pack` fails on the unreduced sum (modelled `none`), so `verify` is
not a total boolean function of payload and checksum. -/
theorem c1_checksum_overflow_counterexample :
    sumBytes (List.replicate 258 255) % 65536 = 254 ∧
    verify (List.replicate 258 255) [254, 0] = none ∧
    verify (List.replicate 258 255) [254, 0] ≠ some true := by decide

/-- Claim C1 (amended): `verify` compares the checksum field against the
little-endian encoding of the EXACT byte sum and only when that sum fits
in 16 bits: it returns true iff the sum is at most 65535 and the 2
trailing checksum bytes equal its little-endian encoding, and it fails
with a struct packing error (no boolean result) exactly when the sum
exceeds 65535 — it never reduces the sum modulo 65536. -/
theorem c1_verify_characterization (data chksum : List Nat) :
    (verify data chksum = some true ↔
      sumBytes data ≤ 65535 ∧ chksum = [sumBytes data % 256, sumBytes data / 256]) ∧
    (verify data chksum = none ↔ 65535 < sumBytes data) := by
  unfold verify pack_uH
  by_cases h : sumBytes data ≤ 65535
  · simp [h]
  · simp [h]
    omega

/-- Witness for C1: the characterization evaluated at the empty payload
with a correct checksum field. -/
theorem c1_verify_characterization_witness :
    (verify [] [0, 0] = some true ↔
      sumBytes [] ≤ 65535 ∧ ([0, 0] : List Nat) = [sumBytes [] % 256, sumBytes [] / 256]) ∧
    (verify [] [0, 0] = none ↔ 65535 < sumBytes []) :=
  c1_verify_characterization [] [0, 0]

/-! ## Claim C2 -/

/-- Claim C2 is false on the code: registering two handlers under the same
name and unregistering that name removes only the FIRST of the two
adjacent matches (the live-list scan skips the element that slides into
the removed slot), and a dispatch performed afterwards still invokes the
surviving second callback. -/
theorem c2_unregister_skips_adjacent_duplicate :
    (unregister_dispatch "joinH"
        (register (register [] "joinH" 1 (fun _ => true)) "joinH" 2 (fun _ => true))).map
      Handler.hid = [2] ∧
    dispatchInvoked
        (unregister_dispatch "joinH"
          (register (register [] "joinH" 1 (fun _ => true)) "joinH" 2 (fun _ => true)))
        ⟨"network_device_trust_response", 0, 0, 0, 0⟩ = [2] := by decide

/-! ## Claim C3 -/

/-- Counterexample to claim C3: from WaitingStartupSync, a startup_sync
packet drives the controller to SerialAck, not to the declared
StartupReset state. -/
theorem c3_skips_startup_reset_counterexample :
    (startup_handler ⟨STATE_WAITING_STARTUP_SYNC, 0, none⟩ []
        ⟨"startup_sync", 0, 0, 0, 0⟩).1.config_state = STATE_SERIAL_ACK ∧
    STATE_SERIAL_ACK ≠ STATE_STARTUP_RESET := by decide

/-- Claim C3 (amended): when the controller is in WaitingStartupSync and
observes a packet whose id is startup_sync, it sends exactly one reset
command and advances DIRECTLY to SerialAck; the declared StartupReset
state is skipped on this transition (it is never assigned anywhere). -/
theorem c3_reset_then_serial_ack (c : Ctrl) (bus : List Handler) (pkt : Packet)
    (hcs : c.config_state = STATE_WAITING_STARTUP_SYNC)
    (hpid : pkt.id = "startup_sync") :
    (startup_handler c bus pkt).1.config_state = STATE_SERIAL_ACK ∧
    (startup_handler c bus pkt).2.2 = [("reset", [])] ∧
    (startup_handler c bus pkt).2.1 = bus ∧
    (startup_handler c bus pkt).1.frame_seq = nextSeq c.frame_seq ∧
    STATE_SERIAL_ACK ≠ STATE_STARTUP_RESET := by
  simp [startup_handler, hcs, hpid, STATE_WAITING_STARTUP_SYNC, STATE_SERIAL_ACK,
    STATE_STARTUP_RESET]

/-- Witness for C3 (amended), at a concrete controller state and packet. -/
theorem c3_reset_then_serial_ack_witness :
    (startup_handler ⟨STATE_WAITING_STARTUP_SYNC, 5, none⟩ []
        ⟨"startup_sync", 0, 0, 0, 0⟩).1.config_state = STATE_SERIAL_ACK ∧
    (startup_handler ⟨STATE_WAITING_STARTUP_SYNC, 5, none⟩ []
        ⟨"startup_sync", 0, 0, 0, 0⟩).2.2 = [("reset", [])] ∧
    (startup_handler ⟨STATE_WAITING_STARTUP_SYNC, 5, none⟩ []
        ⟨"startup_sync", 0, 0, 0, 0⟩).2.1 = [] ∧
    (startup_handler ⟨STATE_WAITING_STARTUP_SYNC, 5, none⟩ []
        ⟨"startup_sync", 0, 0, 0, 0⟩).1.frame_seq = nextSeq 5 ∧
    STATE_SERIAL_ACK ≠ STATE_STARTUP_RESET :=
  c3_reset_then_serial_ack ⟨STATE_WAITING_STARTUP_SYNC, 5, none⟩ []
    ⟨"startup_sync", 0, 0, 0, 0⟩ rfl rfl

/-! ## Claim C5 -/

/-- Claim C5 is false on the code: when the completion predicate matches
no dispatched packet, the synchronous wrapper raises its timeout error
(result `none`) but leaves the one-shot registration under the generated
handler name on the dispatch bus; the success path, by contrast, does
remove it. -/
theorem c5_timeout_leaves_registration :
    (run_synchronous [] "uuid-handler" 7 (fun _ => false)
        [⟨"status_response", 1, 0, 0, 0⟩]).1 = none ∧
    ((run_synchronous [] "uuid-handler" 7 (fun _ => false)
        [⟨"status_response", 1, 0, 0, 0⟩]).2).map Handler.name = ["uuid-handler"] ∧
    ((run_synchronous [] "uuid-handler" 7 (fun _ => true)
        [⟨"status_response", 1, 0, 0, 0⟩]).2).map Handler.name = [] := by decide

/-! ## Claim C8 -/

/-- Claim C8 is false on the code: a well-checksummed frame whose
payload-length byte (the 5th frame byte) is zero is NOT ignored — the
empty-frame guard tests the decoded data, which always still contains the
4 header bytes — so the assembler returns the frame (4 bytes of data) and
it flows on to decoding and dispatch. -/
theorem c8_zero_length_frame_not_ignored :
    ([0xF1, 0x55, 0x21, 0x01, 0x00, 0x77, 0x00] : List Nat)[4]? = some 0 ∧
    wait_for_frame [0xF1, 0x55, 0x21, 0x01, 0x00, 0x77, 0x00] =
      .frame [0x55, 0x21, 0x01, 0x00] := by decide

/-! ## Claim C10 -/

/-- Counterexample to claim C10: parsing an empty raw frame does not
proceed to checksum verification — it fails reading the length byte
(IndexError), an error distinct from both the dead too-short guard and
the invalid-checksum error, so parse does NOT proceed regardless of
raw_data length. -/
theorem c10_empty_raw_counterexample :
    parse [] = .error .indexError ∧
    ParseErr.indexError ≠ ParseErr.invalidChecksum ∧
    ParseErr.indexError ≠ ParseErr.tooShort := by decide

/-- Claim C10 (amended): the documented too-short precondition error is
constructed but never raised, so no input produces it; any raw frame of
at least 5 bytes — including the 5- and 6-byte frames below the
documented 7-byte minimum — proceeds to checksum verification, whose only
outcomes are the parsed payload, the invalid-checksum error, or the
checksum packing overflow; raw frames of fewer than 5 bytes fail with an
index error while reading the length byte instead. -/
theorem c10_parse_guard_never_raised (raw : List Nat) :
    parse raw ≠ .error .tooShort ∧
    (raw.length < 5 → parse raw = .error .indexError) ∧
    (5 ≤ raw.length →
      (∃ d, parse raw = .ok d) ∨ parse raw = .error .invalidChecksum ∨
        parse raw = .error .structOverflow) := by
  cases h4 : raw[4]? with
  | none =>
    have hlen : raw.length ≤ 4 := by
      by_contra hc
      push_neg at hc
      rw [List.getElem?_eq_getElem hc] at h4
      exact Option.noConfusion h4
    refine ⟨?_, fun _ => ?_, fun h5 => by omega⟩
    · simp [parse, h4]
    · simp [parse, h4]
  | some dlen =>
    have h4lt : 4 < raw.length := by
      by_contra hc
      push_neg at hc
      rw [List.getElem?_eq_none (by omega)] at h4
      exact Option.noConfusion h4
    refine ⟨?_, fun hlt => by omega, fun _ => ?_⟩
    · simp only [parse, h4]
      split <;> simp
    · simp only [parse, h4]
      split
      · exact Or.inr (Or.inr rfl)
      · exact Or.inl ⟨_, rfl⟩
      · exact Or.inr (Or.inl rfl)

/-- Witness for C10 (amended), evaluated at the empty raw frame and at a
7-byte frame with a valid checksum. -/
theorem c10_parse_guard_never_raised_witness :
    parse [] = .error .indexError ∧
    ((∃ d, parse [0xF1, 0x55, 0x21, 0x01, 0x00, 0x77, 0x00] = .ok d) ∨
      parse [0xF1, 0x55, 0x21, 0x01, 0x00, 0x77, 0x00] = .error .invalidChecksum ∨
      parse [0xF1, 0x55, 0x21, 0x01, 0x00, 0x77, 0x00] = .error .structOverflow) :=
  ⟨(c10_parse_guard_never_raised []).2.1 (by decide),
   (c10_parse_guard_never_raised [0xF1, 0x55, 0x21, 0x01, 0x00, 0x77, 0x00]).2.2 (by decide)⟩

/-! ## Claim C4 -/

/-- Claim C4: from StartupSyncComplete, a network_status_response packet
with status byte 0x00 (down) makes the controller issue exactly one
form_network command whose channel mask bytes are the little-endian
encoding of 0x03FFF800 (channels 11-25) and move to NetworkDown; a
subsequent network_status_response with status byte 0x01 (up) moves it to
NetworkUp and removes the (sole) startup registration from the dispatch
bus. -/
theorem c4_form_network_then_network_up (c : Ctrl) (l₁ l₂ : List Handler)
    (h : Handler) (pkt1 pkt2 : Packet)
    (hcs : c.config_state = STATE_STARTUP_SYNC_COMPLETE)
    (hid1 : pkt1.id = "network_status_response") (hns1 : pkt1.network_status = 0x00)
    (hid2 : pkt2.id = "network_status_response") (hns2 : pkt2.network_status = 0x01)
    (hh : h.name = "startup")
    (h₁ : ∀ x ∈ l₁, x.name ≠ "startup") (h₂ : ∀ x ∈ l₂, x.name ≠ "startup") :
    (startup_handler c (l₁ ++ h :: l₂) pkt1).1.config_state = STATE_NETWORK_DOWN ∧
    (startup_handler c (l₁ ++ h :: l₂) pkt1).2.2 =
      [("form_network",
        [("channel_mask", [0x00, 0xF8, 0xFF, 0x03]), ("auto_options", [0x03]),
         ("short_pan", [0x00, 0x00]),
         ("expanded_pan", [0x00, 0x00, 0x00, 0x00, 0x00, 0x00, 0x00, 0x00])])] ∧
    leBytesToNat [0x00, 0xF8, 0xFF, 0x03] = 0x03FFF800 ∧
    (startup_handler c (l₁ ++ h :: l₂) pkt1).2.1 = l₁ ++ h :: l₂ ∧
    (startup_handler (startup_handler c (l₁ ++ h :: l₂) pkt1).1
        (startup_handler c (l₁ ++ h :: l₂) pkt1).2.1 pkt2).1.config_state =
      STATE_NETWORK_UP ∧
    (startup_handler (startup_handler c (l₁ ++ h :: l₂) pkt1).1
        (startup_handler c (l₁ ++ h :: l₂) pkt1).2.1 pkt2).2.2 = [] ∧
    (startup_handler (startup_handler c (l₁ ++ h :: l₂) pkt1).1
        (startup_handler c (l₁ ++ h :: l₂) pkt1).2.1 pkt2).2.1 = l₁ ++ l₂ ∧
    ∀ x ∈ (startup_handler (startup_handler c (l₁ ++ h :: l₂) pkt1).1
        (startup_handler c (l₁ ++ h :: l₂) pkt1).2.1 pkt2).2.1,
      x.name ≠ "startup" := by
  have e1 : startup_handler c (l₁ ++ h :: l₂) pkt1 =
      ((⟨STATE_NETWORK_DOWN, nextSeq c.frame_seq, some pkt1⟩ : Ctrl),
       l₁ ++ h :: l₂,
       [("form_network",
         [("channel_mask", [0x00, 0xF8, 0xFF, 0x03]), ("auto_options", [0x03]),
          ("short_pan", [0x00, 0x00]),
          ("expanded_pan", [0x00, 0x00, 0x00, 0x00, 0x00, 0x00, 0x00, 0x00])])]) := by
    simp [startup_handler, hcs, hid1, hns1, STATE_WAITING_STARTUP_SYNC, STATE_SERIAL_ACK,
      STATE_HOST_STARTUP_READY, STATE_HOST_STARTUP_READY_ACK, STATE_CONFIGURE_DEVICE_TYPE,
      STATE_CLEAR_ENDPOINTS, STATE_ADD_ATTRIBUTES, STATE_ADD_ATTRIBUTES_ACK,
      STATE_STARTUP_SYNC_COMPLETE, STATE_NETWORK_DOWN]
  have e2 : startup_handler (⟨STATE_NETWORK_DOWN, nextSeq c.frame_seq, some pkt1⟩ : Ctrl)
      (l₁ ++ h :: l₂) pkt2 =
      ((⟨STATE_NETWORK_UP, nextSeq c.frame_seq, some pkt2⟩ : Ctrl),
       unregister_dispatch "startup" (l₁ ++ h :: l₂), []) := by
    simp [startup_handler, hid2, hns2, STATE_WAITING_STARTUP_SYNC, STATE_SERIAL_ACK,
      STATE_HOST_STARTUP_READY, STATE_HOST_STARTUP_READY_ACK, STATE_CONFIGURE_DEVICE_TYPE,
      STATE_CLEAR_ENDPOINTS, STATE_ADD_ATTRIBUTES, STATE_ADD_ATTRIBUTES_ACK,
      STATE_STARTUP_SYNC_COMPLETE, STATE_NETWORK_DOWN, STATE_NETWORK_UP]
  have hbus : unregister_dispatch "startup" (l₁ ++ h :: l₂) = l₁ ++ l₂ :=
    unreg_unique "startup" l₁ l₂ h hh h₁ h₂
  refine ⟨by rw [e1], by rw [e1], by decide, by rw [e1], ?_, ?_, ?_, ?_⟩
  · rw [e1]
    simp only
    rw [e2]
  · rw [e1]
    simp only
    rw [e2]
  · rw [e1]
    simp only
    rw [e2]
    simp only
    exact hbus
  · rw [e1]
    simp only
    rw [e2]
    simp only
    rw [hbus]
    intro x hx
    rcases List.mem_append.mp hx with hx1 | hx2
    · exact h₁ x hx1
    · exact h₂ x hx2

/-- Witness for C4, at a concrete controller state, bus and packets. -/
theorem c4_form_network_then_network_up_witness :
    (startup_handler ⟨STATE_STARTUP_SYNC_COMPLETE, 0, none⟩
        [⟨"startup", 0, fun _ => true⟩]
        ⟨"network_status_response", 0, 0, 0, 0x00⟩).1.config_state = STATE_NETWORK_DOWN ∧
    (startup_handler ⟨STATE_STARTUP_SYNC_COMPLETE, 0, none⟩
        [⟨"startup", 0, fun _ => true⟩]
        ⟨"network_status_response", 0, 0, 0, 0x00⟩).2.2 =
      [("form_network",
        [("channel_mask", [0x00, 0xF8, 0xFF, 0x03]), ("auto_options", [0x03]),
         ("short_pan", [0x00, 0x00]),
         ("expanded_pan", [0x00, 0x00, 0x00, 0x00, 0x00, 0x00, 0x00, 0x00])])] ∧
    leBytesToNat [0x00, 0xF8, 0xFF, 0x03] = 0x03FFF800 ∧
    (startup_handler ⟨STATE_STARTUP_SYNC_COMPLETE, 0, none⟩
        [⟨"startup", 0, fun _ => true⟩]
        ⟨"network_status_response", 0, 0, 0, 0x00⟩).2.1 =
      [⟨"startup", 0, fun _ => true⟩] ∧
    (startup_handler
        (startup_handler ⟨STATE_STARTUP_SYNC_COMPLETE, 0, none⟩
          [⟨"startup", 0, fun _ => true⟩]
          ⟨"network_status_response", 0, 0, 0, 0x00⟩).1
        (startup_handler ⟨STATE_STARTUP_SYNC_COMPLETE, 0, none⟩
          [⟨"startup", 0, fun _ => true⟩]
          ⟨"network_status_response", 0, 0, 0, 0x00⟩).2.1
        ⟨"network_status_response", 0, 0, 0, 0x01⟩).1.config_state = STATE_NETWORK_UP ∧
    (startup_handler
        (startup_handler ⟨STATE_STARTUP_SYNC_COMPLETE, 0, none⟩
          [⟨"startup", 0, fun _ => true⟩]
          ⟨"network_status_response", 0, 0, 0, 0x00⟩).1
        (startup_handler ⟨STATE_STARTUP_SYNC_COMPLETE, 0, none⟩
          [⟨"startup", 0, fun _ => true⟩]
          ⟨"network_status_response", 0, 0, 0, 0x00⟩).2.1
        ⟨"network_status_response", 0, 0, 0, 0x01⟩).2.2 = [] ∧
    (startup_handler
        (startup_handler ⟨STATE_STARTUP_SYNC_COMPLETE, 0, none⟩
          [⟨"startup", 0, fun _ => true⟩]
          ⟨"network_status_response", 0, 0, 0, 0x00⟩).1
        (startup_handler ⟨STATE_STARTUP_SYNC_COMPLETE, 0, none⟩
          [⟨"startup", 0, fun _ => true⟩]
          ⟨"network_status_response", 0, 0, 0, 0x00⟩).2.1
        ⟨"network_status_response", 0, 0, 0, 0x01⟩).2.1 = [] ∧
    ∀ x ∈ (startup_handler
        (startup_handler ⟨STATE_STARTUP_SYNC_COMPLETE, 0, none⟩
          [⟨"startup", 0, fun _ => true⟩]
          ⟨"network_status_response", 0, 0, 0, 0x00⟩).1
        (startup_handler ⟨STATE_STARTUP_SYNC_COMPLETE, 0, none⟩
          [⟨"startup", 0, fun _ => true⟩]
          ⟨"network_status_response", 0, 0, 0, 0x00⟩).2.1
        ⟨"network_status_response", 0, 0, 0, 0x01⟩).2.1,
      x.name ≠ "startup" :=
  c4_form_network_then_network_up ⟨STATE_STARTUP_SYNC_COMPLETE, 0, none⟩ [] []
    ⟨"startup", 0, fun _ => true⟩
    ⟨"network_status_response", 0, 0, 0, 0x00⟩
    ⟨"network_status_response", 0, 0, 0, 0x01⟩
    rfl rfl rfl rfl rfl rfl (by simp) (by simp)

/-! ## Claim C6 -/

/-- On any schema whose fields satisfy `goodField`, the source field loop
computes exactly what the claim describes. -/
theorem build_claim_eq (kw : String → Option (List Nat)) :
    ∀ fs : List CField, fs.all goodField = true → buildFields fs kw = claimFields fs kw := by
  intro fs
  induction fs with
  | nil => intro _; rfl
  | cons f rest ih =>
    intro hall
    rw [List.all_cons, Bool.and_eq_true] at hall
    obtain ⟨hf, hrest⟩ := hall
    have ihr : buildFields rest kw = claimFields rest kw := ih hrest
    cases hkw : kw f.name with
    | some d =>
      cases hlen : f.len with
      | none =>
        simp only [buildFields, claimFields, hkw, hlen, lenFails, ihr,
          Bool.false_eq_true, if_false]
        cases claimFields rest kw with
        | error e => rfl
        | ok p => cases d <;> rfl
      | some L =>
        have hL : ¬(L = 0) := by
          simp [goodField, hlen] at hf
          exact hf.1
        by_cases hdl : d.length = L
        · have hd : d.isEmpty = false := by
            cases d with
            | nil => simp at hdl; omega
            | cons a t => rfl
          have hlf : lenFails (some L) d = false := by
            simp [lenFails, hdl]
          simp only [buildFields, claimFields, hkw, hlen, hlf, ihr,
            Bool.false_eq_true, if_false, hdl]
          simp only [ne_eq, not_true_eq_false, if_false, hd]
          cases claimFields rest kw with
          | error e => rfl
          | ok p => simp
        · have hlf : lenFails (some L) d = true := by
            simp [lenFails, hdl, hL]
          simp [buildFields, claimFields, hkw, hlen, hlf, hdl]
    | none =>
      cases hlen : f.len with
      | some L =>
        cases hdef : f.default with
        | some dv =>
          have hgf := hf
          simp [goodField, hlen, hdef] at hgf
          obtain ⟨hL, hdv⟩ := hgf
          have hde : dv.isEmpty = false := by
            cases dv with
            | nil => exact absurd rfl hdv
            | cons a t => rfl
          by_cases hdl : dv.length = L
          · have hlf : lenFails (some L) dv = false := by
              simp [lenFails, hdl]
            cases hc : claimFields rest kw <;>
              simp [buildFields, claimFields, hkw, hlen, hdef, hde, hlf, ihr, hdl, hc]
          · have hlf : lenFails (some L) dv = true := by
              simp [lenFails, hdl, hL]
            simp [buildFields, claimFields, hkw, hlen, hdef, hde, hlf, hdl]
        | none =>
          simp [buildFields, claimFields, hkw, hlen, hdef]
      | none =>
        have hdef : f.default = none := by
          cases hd : f.default with
          | none => rfl
          | some dv => simp [goodField, hlen, hd] at hf
        simp only [buildFields, claimFields, hkw, hlen, hdef, ihr]

/-- Claim C6: for every command schema in the registry and every
caller-supplied field mapping, the source field loop of `_build_command`
treats each non-id field exactly as the claim describes (`claimFields`):
caller value first, else declared default, else nothing for a non-fixed
field, else MissingField — and a fixed-length value of the wrong byte
length fails with FieldLengthMismatch. -/
theorem c6_build_fields_follow_claim (nm : String) (spec : List CField)
    (hmem : (nm, spec) ∈ api_commands) (kw : String → Option (List Nat)) :
    buildFields (spec.drop 1) kw = claimFields (spec.drop 1) kw := by
  apply build_claim_eq
  have hall : api_commands.all (fun e => (e.2.drop 1).all goodField) = true := by decide
  rw [List.all_eq_true] at hall
  exact hall (nm, spec) hmem

/-- Witness for C6: the form_network schema with no caller fields; both
the source loop and the claim algorithm fail with the same MissingField. -/
theorem c6_build_fields_follow_claim_witness :
    buildFields (formNetworkSpec.drop 1) (fun _ => none) =
      claimFields (formNetworkSpec.drop 1) (fun _ => none) :=
  c6_build_fields_follow_claim "form_network" formNetworkSpec (by decide) (fun _ => none)

/-! ## Claim C7 -/

/-- Characterization of the field walk on well-formed schemas: starting at
cursor `i`, the walk fails with TruncatedResponse exactly when the data is
shorter than the cursor plus all declared fixed lengths, and otherwise
succeeds with final cursor `i` plus the fixed lengths (or the whole data
length when a consume-the-rest field is present). -/
theorem split_fields_char :
    ∀ fs : List RField, wfFields fs = true →
      ∀ (data : List Nat) (i : Nat), (i ≤ data.length ∨ startsFixed fs = true) →
        (data.length < i + fixedSum fs → split_fields fs data i = .error .truncated) ∧
        (i + fixedSum fs ≤ data.length →
          ∃ flds, split_fields fs data i =
            .ok (if hasRemainder fs then data.length else i + fixedSum fs, flds)) := by
  intro fs
  induction fs with
  | nil =>
    intro _ data i hside
    constructor
    · intro hlt
      simp only [fixedSum] at hlt
      rcases hside with hle | hsf
      · omega
      · simp [startsFixed] at hsf
    · intro _
      exact ⟨[], by simp [split_fields, hasRemainder, fixedSum]⟩
  | cons f rest ih =>
    intro hwf data i hside
    cases hlen : f.len with
    | some L =>
      have hwfr : wfFields rest = true := by
        rw [wfFields, Bool.and_eq_true] at hwf
        exact hwf.2
      have hfx : fixedSum (f :: rest) = L + fixedSum rest := by
        simp [fixedSum, hlen]
      have hrem : hasRemainder (f :: rest) = hasRemainder rest := by
        simp [hasRemainder, hlen]
      constructor
      · intro hlt
        rw [hfx] at hlt
        by_cases hc : i + L > data.length
        · simp [split_fields, hlen, hc]
        · push_neg at hc
          have ht := (ih hwfr data (i + L) (Or.inl hc)).1 (by omega)
          simp [split_fields, hlen, Nat.not_lt.mpr hc, ht]
      · intro hle
        rw [hfx] at hle
        have hc : ¬(i + L > data.length) := by omega
        obtain ⟨flds, hok⟩ := (ih hwfr data (i + L) (Or.inl (by omega))).2 (by omega)
        refine ⟨(f.name, (data.drop i).take L) :: flds, ?_⟩
        simp only [split_fields, hlen, if_neg hc, hok]
        rw [hrem, hfx]
        cases hr : hasRemainder rest with
        | true => rfl
        | false =>
          simp only [Bool.false_eq_true, if_false]
          have harith : i + L + fixedSum rest = i + (L + fixedSum rest) := by omega
          rw [harith]
    | none =>
      cases rest with
      | cons g t =>
        rw [wfFields] at hwf
        simp [hlen] at hwf
      | nil =>
        have hfx : fixedSum [f] = 0 := by simp [fixedSum, hlen]
        have hile : i ≤ data.length := by
          rcases hside with hle | hs
          · exact hle
          · simp [startsFixed, hlen] at hs
        constructor
        · intro hlt
          rw [hfx] at hlt
          omega
        · intro _
          have hdl : (data.drop i).length = data.length - i := List.length_drop i data
          by_cases hfd : (data.drop i).isEmpty = true
          · have hnil : data.drop i = [] := by
              cases hdd : data.drop i with
              | nil => rfl
              | cons a t => rw [hdd] at hfd; simp at hfd
            have hieq : data.length = i := by
              have hzero := congrArg List.length hnil
              rw [hdl] at hzero
              simp at hzero
              omega
            refine ⟨[], ?_⟩
            simp [split_fields, hlen, hfd, hasRemainder, hfx, hieq]
          · refine ⟨[(f.name, data.drop i)], ?_⟩
            simp only [split_fields, hlen, hfd, if_false, Bool.false_eq_true]
            simp [hasRemainder, hlen]
            omega

/-- Counterexample to claim C7: for the startup_sync schema and the raw
payload consisting only of its 2 id bytes, fewer bytes remain than the
first fixed-length field needs, yet the decode does not fail with
TruncatedResponse — it fails reading the echoed frame-id byte at offset 2
(IndexError) before the field walk even starts. -/
theorem c7_short_payload_counterexample :
    ([0x55, 0x21], startupSyncSpec) ∈ api_responses ∧
    split_response startupSyncSpec [0x55, 0x21] = .error .indexError ∧
    SplitErr.indexError ≠ SplitErr.truncated := by decide

/-- Claim C7 (amended): for every response schema in the registry and
every raw payload of at least 3 bytes (shorter payloads fail with an
index error reading the echoed frame-id byte instead), the walk from
offset 4 reads exactly the declared number of bytes per fixed-length
field and fails with TruncatedResponse exactly when the payload is
shorter than offset 4 plus all declared fixed lengths; after the declared
fields are consumed the decode fails with OverlongResponse exactly when
more than 2 unconsumed bytes (the checksum allowance) remain, which can
only happen when the schema has no consume-the-rest field. -/
theorem c7_split_response_bounds :
    ∀ e ∈ api_responses, ∀ data : List Nat, 3 ≤ data.length →
      (split_response e.2 data = .error .truncated ↔
        data.length < 4 + fixedSum e.2.fields) ∧
      (split_response e.2 data = .error .overlong ↔
        (hasRemainder e.2.fields = false ∧ 4 + fixedSum e.2.fields + 2 < data.length)) := by
  intro e he data hlen3
  have hfs : api_responses.all
      (fun e => wfFields e.2.fields && startsFixed e.2.fields) = true := by decide
  rw [List.all_eq_true] at hfs
  have hef := hfs e he
  rw [Bool.and_eq_true] at hef
  obtain ⟨hwf, hsf⟩ := hef
  obtain ⟨fid, h2⟩ : ∃ fid, data[2]? = some fid :=
    ⟨_, List.getElem?_eq_getElem (by omega)⟩
  have char := split_fields_char e.2.fields hwf data 4 (Or.inr hsf)
  by_cases hT : data.length < 4 + fixedSum e.2.fields
  · have ht := char.1 hT
    have hsr : split_response e.2 data = .error .truncated := by
      simp [split_response, h2, ht]
    constructor
    · exact ⟨fun _ => hT, fun _ => hsr⟩
    · constructor
      · intro hov
        rw [hsr] at hov
        simp at hov
      · rintro ⟨_, hgt⟩
        omega
  · push_neg at hT
    obtain ⟨flds, hok⟩ := char.2 hT
    cases hr : hasRemainder e.2.fields with
    | true =>
      rw [hr] at hok
      have hsr : split_response e.2 data = .ok (e.2.name, fid, flds) := by
        simp [split_response, h2, hok]
      constructor
      · constructor
        · intro htr
          rw [hsr] at htr
          simp at htr
        · intro hlt
          omega
      · constructor
        · intro hov
          rw [hsr] at hov
          simp at hov
        · rintro ⟨hfalse, _⟩
          simp at hfalse
    | false =>
      rw [hr] at hok
      simp only [Bool.false_eq_true, if_false] at hok
      by_cases hov : 4 + fixedSum e.2.fields + 2 < data.length
      · have hsr : split_response e.2 data = .error .overlong := by
          simp [split_response, h2, hok, hov]
        constructor
        · constructor
          · intro htr
            rw [hsr] at htr
            simp at htr
          · intro hlt
            omega
        · exact ⟨fun _ => ⟨rfl, hov⟩, fun _ => hsr⟩
      · have hsr : split_response e.2 data = .ok (e.2.name, fid, flds) := by
          simp [split_response, h2, hok, hov]
        constructor
        · constructor
          · intro htr
            rw [hsr] at htr
            simp at htr
          · intro hlt
            omega
        · constructor
          · intro ho
            rw [hsr] at ho
            simp at ho
          · rintro ⟨_, hgt⟩
            exact absurd hgt hov

/-- Witness for C7 (amended): the startup_sync entry on a 6-byte payload,
which decodes cleanly, so both error characterizations are vacuous. -/
theorem c7_split_response_bounds_witness :
    (split_response startupSyncSpec [0x55, 0x21, 9, 9, 1, 2] = .error .truncated ↔
      ([0x55, 0x21, 9, 9, 1, 2] : List Nat).length < 4 + fixedSum startupSyncSpec.fields) ∧
    (split_response startupSyncSpec [0x55, 0x21, 9, 9, 1, 2] = .error .overlong ↔
      (hasRemainder startupSyncSpec.fields = false ∧
        4 + fixedSum startupSyncSpec.fields + 2 <
          ([0x55, 0x21, 9, 9, 1, 2] : List Nat).length)) :=
  c7_split_response_bounds ([0x55, 0x21], startupSyncSpec) (by decide)
    [0x55, 0x21, 9, 9, 1, 2] (by decide)

/-! ## Claim C9 -/

/-- Counterexample to claim C9: a call to the encoder that fails (the
form_network schema with no caller-supplied fields raises MissingField)
does NOT increment the frame sequence counter — the increment sits after
the field loop, so "every call" is too strong. -/
theorem c9_failed_encode_keeps_counter :
    ("form_network", formNetworkSpec) ∈ api_commands ∧
    (build_command formNetworkSpec (fun _ => none) 5).1 =
      .error (.missingField "channel_mask") ∧
    (build_command formNetworkSpec (fun _ => none) 5).2 = 5 ∧
    (5 : Nat) ≠ (5 + 1) % 256 := by decide

/-- Claim C9 (amended): every SUCCESSFUL call to the encoder increments
the frame sequence counter by one wrapping at 256 (the counter stays in
0..255 and the emitted frame-id byte — position 2, after the 2-byte id —
equals the post-increment value), and writes the 1-byte payload-length
field (position 3) as the low 8 bits of the payload size, silently
truncated for payloads of 256 bytes or more; a call that fails with an
encoding error leaves the counter unchanged. -/
theorem c9_sequence_and_length_byte (nm : String) (spec : List CField)
    (hmem : (nm, spec) ∈ api_commands) (kw : String → Option (List Nat)) (seq : Nat) :
    (∀ pkt, (build_command spec kw seq).1 = .ok pkt →
      (build_command spec kw seq).2 = (seq + 1) % 256 ∧
      (seq + 1) % 256 < 256 ∧
      pkt[2]? = some ((seq + 1) % 256) ∧
      pkt[3]? = some ((pkt.length - 6) % 256)) ∧
    (∀ e, (build_command spec kw seq).1 = .error e →
      (build_command spec kw seq).2 = seq) := by
  have hid : api_commands.all (fun e =>
      match e.2.head? with
      | some f => f.name == "id" && f.len == some 2 &&
          (match f.default with
           | some d => d.length == 2
           | none => false)
      | none => false) = true := by decide
  rw [List.all_eq_true] at hid
  have hids := hid (nm, spec) hmem
  cases spec with
  | nil => simp at hids
  | cons idf rest =>
    rw [List.head?_cons] at hids
    simp only [Bool.and_eq_true] at hids
    obtain ⟨⟨hnmb, _⟩, hdefb⟩ := hids
    have hname : idf.name = "id" := by simpa using hnmb
    cases hd : idf.default with
    | none => rw [hd] at hdefb; simp at hdefb
    | some cid =>
      rw [hd] at hdefb
      have hcl : cid.length = 2 := by simpa using hdefb
      obtain ⟨a, b, hab⟩ := List.length_eq_two.mp hcl
      cases hb : buildFields rest kw with
      | error e =>
        have hbc : build_command (idf :: rest) kw seq = (.error e, seq) := by
          simp [build_command, hname, hd, hb]
        rw [hbc]
        exact ⟨fun pkt hpk => by simp at hpk, fun e' _ => rfl⟩
      | ok payload =>
        have hbc : build_command (idf :: rest) kw seq =
            (.ok (cid ++ [nextSeq seq, payload.length % 256] ++ payload ++
              [sumBytes (cid ++ [nextSeq seq, payload.length % 256] ++ payload) % 256,
               sumBytes (cid ++ [nextSeq seq, payload.length % 256] ++ payload) / 256 % 256]),
             nextSeq seq) := by
          simp [build_command, hname, hd, hb]
        rw [hbc]
        refine ⟨fun pkt hpk => ?_, fun e' he' => by simp at he'⟩
        simp only [Except.ok.injEq] at hpk
        subst hab
        refine ⟨rfl, Nat.mod_lt _ (by omega), ?_, ?_⟩
        · rw [← hpk]
          simp [nextSeq]
        · rw [← hpk]
          have hplen : (([a, b] ++ [nextSeq seq, payload.length % 256] ++ payload ++
              [sumBytes ([a, b] ++ [nextSeq seq, payload.length % 256] ++ payload) % 256,
               sumBytes ([a, b] ++ [nextSeq seq, payload.length % 256] ++ payload) / 256 % 256]
              : List Nat).length - 6) = payload.length := by
            simp [List.length_append]
          rw [hplen]
          simp

/-- Witness for C9 (amended): the reset command encoded from counter 0
emits frame [0x55, 0x00, 0x01, 0x00, 0x56, 0x00]; the counter becomes 1,
the frame-id byte (position 2) is 1, and the length byte (position 3) is
the payload size 0. -/
theorem c9_sequence_and_length_byte_witness :
    (build_command resetSpec (fun _ => none) 0).2 = (0 + 1) % 256 ∧
    (0 + 1) % 256 < 256 ∧
    ([0x55, 0x00, 0x01, 0x00, 0x56, 0x00] : List Nat)[2]? = some ((0 + 1) % 256) ∧
    ([0x55, 0x00, 0x01, 0x00, 0x56, 0x00] : List Nat)[3]? =
      some ((([0x55, 0x00, 0x01, 0x00, 0x56, 0x00] : List Nat).length - 6) % 256) :=
  (c9_sequence_and_length_byte "reset" resetSpec (by decide) (fun _ => none) 0).1
    [0x55, 0x00, 0x01, 0x00, 0x56, 0x00] (by decide)
